import Mathlib

/-
Verification development for create_account.py (HP account automation).

Shallow embedding of the OTP-retrieval-and-verification pipeline:
identity generation (generate_random_mailbox, generate_random_name),
the Mailsac polling loop and OTP extraction of fetch_otp_from_mailsac,
and the orchestration in main (try/finally with generate_report).

External effects (Selenium waits, pywinauto controls, the Faker library)
are modelled by explicit environment records whose fields give the outcome
of each external action; exceptions in the Python source become explicit
branches of the model.  Python's re.search with the pattern
\b(\d{4,8})\b is embedded as an executable leftmost search with greedy
backtracking over the candidate lengths 8,7,...,4.  The character classes
\d and \w are embedded twice: otpSearch reads them at ASCII granularity,
which is exact for bodies made of ASCII characters (for ASCII characters
Python's Unicode-aware \d and \w coincide with the ASCII readings), and
otpSearchU extends them with the Arabic-Indic digit block U+0660..U+0669
(Unicode category Nd), exhibiting Python's Unicode-aware behavior on
non-ASCII bodies: there re.search can return codes of non-ASCII digits.
-/

-- ---------------------------------------------------------------------
-- Configuration constants from create_account.py
-- ---------------------------------------------------------------------

def MAIL_DOMAIN : String := "mailsac.com"

def DEFAULT_TIMEOUT : Nat := 60

def POLL_INTERVAL : Nat := 3

def OTP_MAX_WAIT : Nat := 60

-- ---------------------------------------------------------------------
-- Identity generator (generate_random_mailbox / generate_random_name)
-- ---------------------------------------------------------------------

/-- Embedding of generate_random_mailbox.  The random source fake.email()
is passed explicitly as fakeEmail; the source binds it to a variable named
after the local part and returns f-string fakeEmail, "@", domain.
The length parameter (named after the local part length in the source,
default MAILBOX_PREFIX_LEN = 6) is accepted but never used, exactly as in
the source. -/
def generate_random_mailbox (fakeEmail : String) (pfx_len : Nat) (domain : String) : String :=
  fakeEmail ++ "@" ++ domain

/-- Embedding of generate_random_name.  The random sources
fake.first_name() and fake.last_name() are passed explicitly; the two
length parameters (defaults FIRSTNAME_LEN = LASTNAME_LEN = 12) are
accepted but never used, exactly as in the source. -/
def generate_random_name (fakeFirst fakeLast : String) (first_len last_len : Nat) :
    String × String :=
  (fakeFirst, fakeLast)

/-- Number of occurrences of the at-sign in a string. -/
def countAt (s : String) : Nat := s.data.count '@'

-- ---------------------------------------------------------------------
-- OTP extraction: re.search(r"\b(\d{4,8})\b", body)
-- ---------------------------------------------------------------------

/-- Python word character (regex word class), at ASCII granularity:
letters, digits and the underscore. -/
def isWordChar (c : Char) : Bool := c.isAlphanum || c = '_'

/-- The word-boundary condition to the right of a match: the rest of the
input is empty or starts with a non-word character. -/
def headNonWord : List Char → Bool
  | [] => true
  | c :: _ => !isWordChar c

/-- At the current position, a block of exactly L digits can be matched
with a word boundary after it: L characters are available, the first L
characters are all digits, and the character after them (if any) is not a
word character. -/
def boundaryOk (L : Nat) (s : List Char) : Bool :=
  decide (L ≤ s.length) && (s.take L).all Char.isDigit && headNonWord (s.drop L)

/-- Greedy backtracking over the quantifier d{4,8}: try the candidate
length N first, then N-1, ..., down to 4, returning the matched digits of
the first length that satisfies the trailing word boundary. -/
def tryLens (s : List Char) : Nat → Option (List Char)
  | 0 => none
  | L + 1 =>
    if L + 1 < 4 then none
    else if boundaryOk (L + 1) s then some (s.take (L + 1))
    else tryLens s L

/-- Leftmost search for \b(\d{4,8})\b.  The Boolean argument records
whether the character before the current position is a word character
(false at the start of the input); a match may only begin at a position
whose preceding character is not a word character, since the first matched
character is a digit. -/
def searchAux : Bool → List Char → Option (List Char)
  | _, [] => none
  | true, c :: cs => searchAux (isWordChar c) cs
  | false, c :: cs =>
    match tryLens (c :: cs) 8 with
    | some m => some m
    | none => searchAux (isWordChar c) cs

/-- Embedding of re.search(OTP_REGEX, email_body) followed by
match.group(1): OTP_REGEX is \b(\d{4,8})\b, so group 1 is the whole
match.  Returns the first 4-to-8-digit whole token of the body, or none. -/
def otpSearch (s : String) : Option String :=
  Option.map String.mk (searchAux false s.data)

/-- Word-character status of the character preceding the position right
after the list p, where pw is the status of the character preceding p
itself (used for p = []). -/
def lastWord (pw : Bool) : List Char → Bool
  | [] => pw
  | c :: cs => lastWord (isWordChar c) cs

/-- m is a 4-to-8-digit token and the input continuing after it (q) starts
with a word boundary. -/
def tokenCore (m q : List Char) : Bool :=
  m.all Char.isDigit && decide (4 ≤ m.length) && decide (m.length ≤ 8) && headNonWord q

/-- The decomposition p ++ m ++ q exhibits m as a whole 4-to-8-digit token
delimited by word boundaries (pw: word-character status of the character
just before the whole input, false for a full string). -/
def tokenSplit (pw : Bool) (p m q : List Char) : Bool :=
  !(lastWord pw p) && tokenCore m q

-- ---------------------------------------------------------------------
-- Unicode-aware OTP extraction (Python re semantics beyond ASCII)
-- ---------------------------------------------------------------------

/-- The Arabic-Indic decimal digit block U+0660 to U+0669, Unicode
category Nd: matched by Python's \d on str beyond the ASCII digits. -/
def isArabicIndicDigit (c : Char) : Bool :=
  0x660 ≤ c.toNat && c.toNat ≤ 0x669

/-- Python's \d — any Unicode category-Nd character — restricted to the
character repertoire occurring in this development: the ASCII digits
together with the Arabic-Indic digit block. -/
def isDigitU (c : Char) : Bool := c.isDigit || isArabicIndicDigit c

/-- Python's \w — any Unicode alphanumeric character or the underscore —
restricted to the same repertoire: Unicode digits are alphanumeric, so
the Arabic-Indic digits are word characters. -/
def isWordCharU (c : Char) : Bool := isWordChar c || isArabicIndicDigit c

/-- Unicode-aware version of headNonWord. -/
def headNonWordU : List Char → Bool
  | [] => true
  | c :: _ => !isWordCharU c

/-- Unicode-aware version of boundaryOk. -/
def boundaryOkU (L : Nat) (s : List Char) : Bool :=
  decide (L ≤ s.length) && (s.take L).all isDigitU && headNonWordU (s.drop L)

/-- Unicode-aware version of tryLens. -/
def tryLensU (s : List Char) : Nat → Option (List Char)
  | 0 => none
  | L + 1 =>
    if L + 1 < 4 then none
    else if boundaryOkU (L + 1) s then some (s.take (L + 1))
    else tryLensU s L

/-- Unicode-aware version of searchAux. -/
def searchAuxU : Bool → List Char → Option (List Char)
  | _, [] => none
  | true, c :: cs => searchAuxU (isWordCharU c) cs
  | false, c :: cs =>
    match tryLensU (c :: cs) 8 with
    | some m => some m
    | none => searchAuxU (isWordCharU c) cs

/-- The Unicode-aware reading of re.search(OTP_REGEX, body) followed by
match.group(1): the same leftmost greedy search as otpSearch, with \d
and \w read at Unicode granularity (on the repertoire above), as
Python's re does on str. -/
def otpSearchU (s : String) : Option String :=
  Option.map String.mk (searchAuxU false s.data)

-- ---------------------------------------------------------------------
-- The inbox polling loop of fetch_otp_from_mailsac
-- ---------------------------------------------------------------------

/-- One execution of the while loop
  while time.time() - start_time is less than max_wait: ...
found k: iteration k locates and clicks the first inbox row (the inner
WebDriverWait with timeout poll_interval succeeds and the click goes
through); d k: the wall-clock duration of iteration k's row lookup.  The
loop body's own exceptions are caught by the inner handler (which
re-clicks the check-mail button, swallowing even that failure), so no
iteration escapes the loop by exception.  Fuel bounds the recursion; with
every iteration taking at least one time unit, fuel max_wait + 1 is never
exhausted.  Returns (row found, elapsed time at loop exit). -/
def pollLoopAux (found : Nat → Bool) (d : Nat → Nat) (max_wait : Nat) :
    Nat → Nat → Nat → Bool × Nat
  | 0, t, _ => (false, t)
  | fuel + 1, t, k =>
    if t < max_wait then
      if found k then (true, t + d k)
      else pollLoopAux found d max_wait fuel (t + d k) (k + 1)
    else (false, t)

/-- The polling loop, started at elapsed time 0 and iteration 0. -/
def pollLoop (found : Nat → Bool) (d : Nat → Nat) (max_wait : Nat) : Bool × Nat :=
  pollLoopAux found d max_wait (max_wait + 1) 0 0

-- ---------------------------------------------------------------------
-- fetch_otp_from_mailsac
-- ---------------------------------------------------------------------

/-- Outcomes of the external actions performed by fetch_otp_from_mailsac.
createOk: webdriver.Chrome construction succeeds; navOk: driver.get on
the Mailsac URL; mailboxFieldOk: the mailbox input is located within
DEFAULT_TIMEOUT and clear/send_keys succeed; checkBtnOk: the check-mail
button becomes clickable within SHORT_TIMEOUT and the click succeeds;
iterOk k / iterDur k: success and duration of poll iteration k (row
located within poll_interval and clicked); bodyText: some body if the
message body element renders within DEFAULT_TIMEOUT, none if that wait
times out (raising into the outer handler). -/
structure FetchEnv where
  createOk : Bool
  navOk : Bool
  mailboxFieldOk : Bool
  checkBtnOk : Bool
  iterOk : Nat → Bool
  iterDur : Nat → Nat
  bodyText : Option String

/-- Observable outcome of one call to fetch_otp_from_mailsac.
otp / sessionReturned: the returned pair (sessionReturned is true when the
returned driver handle is non-null); sessionOpen: the browser session is
still open at return; quitCount: number of driver.quit() calls made;
raised: an exception escaped the try body and was caught by the outer
handler; reachedBodyWait: control reached the WebDriverWait on the
emailBody element; reachedExtraction: control reached the re.search over
the body text; pollElapsed: elapsed time at exit of the polling loop. -/
structure FetchResult where
  otp : Option String
  sessionReturned : Bool
  sessionOpen : Bool
  quitCount : Nat
  raised : Bool
  reachedBodyWait : Bool
  reachedExtraction : Bool
  pollElapsed : Nat

/-- Embedding of fetch_otp_from_mailsac.  The try body runs the sequence
create driver, get URL, fill mailbox field, click check-mail, poll for a
row (failures stay inside the loop), wait for the body element, re.search
for the OTP; any exception reaches the outer handler, which calls
driver.quit() when the driver was constructed and returns (None, None).
On the no-exception path the function returns (otp, driver) with the
session left open, where otp is the regex result (possibly none). -/
def fetchModel (env : FetchEnv) (max_wait : Nat) : FetchResult :=
  if env.createOk then
    if env.navOk then
      if env.mailboxFieldOk then
        if env.checkBtnOk then
          let poll := pollLoop env.iterOk env.iterDur max_wait
          match env.bodyText with
          | none => ⟨none, false, false, 1, true, true, false, poll.2⟩
          | some b => ⟨otpSearch b, true, true, 0, false, true, true, poll.2⟩
        else ⟨none, false, false, 1, true, false, false, 0⟩
      else ⟨none, false, false, 1, true, false, false, 0⟩
    else ⟨none, false, false, 1, true, false, false, 0⟩
  else ⟨none, false, false, 0, true, false, false, 0⟩

-- ---------------------------------------------------------------------
-- The orchestrator main()
-- ---------------------------------------------------------------------

/-- The observable events of one run of main: the six pipeline steps
attempted in the try body, plus the two cleanup actions of the finally
block. -/
inductive MainEv
  | genMailbox
  | genName
  | launch
  | fillForm
  | fetchCall
  | submitOtp
  | alertCheck
  | quitDriver
  | report
deriving DecidableEq, Repr

/-- Inputs and injected faults for one run of main.  launchDesktop:
launch_hp_smart returned a non-null Desktop (it catches its own
exceptions and returns None on failure); fetchOtp / fetchDriver: the pair
returned by fetch_otp_from_mailsac (which likewise never raises);
raiseAt: none for a run in which no unexpected exception escapes a step
of the try body, some j when an unexpected exception escapes at step
index j (all steps with smaller index completed, all later steps are
skipped, and the finally block still runs). -/
structure MainEnv where
  launchDesktop : Bool
  fetchOtp : Option String
  fetchDriver : Bool
  raiseAt : Option Nat

/-- Step index j of main's try body completed (the value it assigns is
live afterwards). -/
def stepCompleted (r : Option Nat) (i : Nat) : Bool :=
  match r with
  | none => true
  | some j => decide (i < j)

/-- The driver variable of main is non-null after the try body: the
assignment from fetch_otp_from_mailsac (step index 4) completed and the
returned handle was non-null.  (driver is initialised to None before the
try.) -/
def heldDriver (env : MainEnv) : Bool :=
  stepCompleted env.raiseAt 4 && env.fetchDriver

/-- The full event list of the try body when no step raises: identity and
name generation, launch, form fill guarded by a non-null desktop, the
fetch call, OTP submission guarded by a non-null code, alert handling
guarded by a non-null driver. -/
def plannedSteps (env : MainEnv) : List (List MainEv) :=
  [[MainEv.genMailbox], [MainEv.genName], [MainEv.launch],
   if env.launchDesktop then [MainEv.fillForm] else [],
   [MainEv.fetchCall],
   if env.fetchOtp.isSome then [MainEv.submitOtp] else [],
   if env.fetchDriver then [MainEv.alertCheck] else []]

/-- Events produced by main's try body: the whole plan when nothing
raises, otherwise the steps before the raising one. -/
def tryEvents (env : MainEnv) : List MainEv :=
  match env.raiseAt with
  | none => (plannedSteps env).flatten
  | some j => ((plannedSteps env).take j).flatten

/-- Events of one whole run of main: the try body followed by the finally
block, which quits the driver when one is held (swallowing any error of
the quit itself) and then calls generate_report, on every path. -/
def mainEvents (env : MainEnv) : List MainEv :=
  tryEvents env ++ (if heldDriver env then [MainEv.quitDriver] else []) ++ [MainEv.report]

-- ---------------------------------------------------------------------
-- Helper lemmas about the regex search
-- ---------------------------------------------------------------------

theorem boundaryOk_parts {L : Nat} {s : List Char} (h : boundaryOk L s = true) :
    L ≤ s.length ∧ (s.take L).all Char.isDigit = true ∧ headNonWord (s.drop L) = true := by
  unfold boundaryOk at h
  simp only [Bool.and_eq_true, decide_eq_true_eq] at h
  exact ⟨h.1.1, h.1.2, h.2⟩

theorem boundaryOk_intro (m q : List Char) (hd : m.all Char.isDigit = true)
    (hq : headNonWord q = true) : boundaryOk m.length (m ++ q) = true := by
  unfold boundaryOk
  simp only [Bool.and_eq_true, decide_eq_true_eq]
  refine ⟨⟨?_, ?_⟩, ?_⟩
  · simp [List.length_append]
  · rw [List.take_left]
    exact hd
  · rw [List.drop_left]
    exact hq

theorem tryLens_sound : ∀ (N : Nat) (s m : List Char), tryLens s N = some m →
    ∃ L, 4 ≤ L ∧ L ≤ N ∧ boundaryOk L s = true ∧ m = s.take L := by
  intro N
  induction N with
  | zero => intro s m h; simp [tryLens] at h
  | succ N ih =>
    intro s m h
    rw [tryLens] at h
    split at h
    · exact absurd h (by simp)
    · split at h
      · next hb =>
        injection h with h
        exact ⟨N + 1, by omega, Nat.le_refl _, hb, h.symm⟩
      · obtain ⟨L, hL4, hLN, hok, hm⟩ := ih s m h
        exact ⟨L, hL4, Nat.le_succ_of_le hLN, hok, hm⟩

theorem tryLens_none : ∀ (N : Nat) (s : List Char), tryLens s N = none →
    ∀ L, 4 ≤ L → L ≤ N → boundaryOk L s = false := by
  intro N
  induction N with
  | zero => intro s _ L h4 h0; omega
  | succ N ih =>
    intro s h L h4 hL
    rw [tryLens] at h
    split at h
    · next hlt => omega
    · split at h
      · exact absurd h (by simp)
      · next hb =>
        rcases Nat.lt_succ_iff_lt_or_eq.mp (Nat.lt_succ_of_le hL) with hlt | heq
        · exact ih s h L h4 (by omega)
        · subst heq
          exact Bool.not_eq_true _ ▸ eq_false_of_ne_true hb

theorem tokenSplit_cons (pw : Bool) (c : Char) (p m q : List Char) :
    tokenSplit pw (c :: p) m q = tokenSplit (isWordChar c) p m q := rfl

/-- Soundness and leftmost-ness of the search: a successful search result
is a whole 4-to-8-digit token of the input, and no such token starts
strictly earlier. -/
theorem searchAux_spec : ∀ (s : List Char) (pw : Bool) (m : List Char),
    searchAux pw s = some m →
    ∃ p q, s = p ++ (m ++ q) ∧ tokenSplit pw p m q = true ∧
      ∀ p' m' q', s = p' ++ (m' ++ q') → tokenSplit pw p' m' q' = true →
        p.length ≤ p'.length := by
  intro s
  induction s with
  | nil => intro pw m h; simp [searchAux] at h
  | cons c cs ih =>
    intro pw m h
    cases pw with
    | true =>
      rw [searchAux] at h
      obtain ⟨p, q, hsplit, htok, hmin⟩ := ih (isWordChar c) m h
      refine ⟨c :: p, q, by rw [List.cons_append, hsplit], ?_, ?_⟩
      · rw [tokenSplit_cons]
        exact htok
      · intro p' m' q' hsplit' htok'
        cases p' with
        | nil =>
          exfalso
          simp [tokenSplit, lastWord] at htok'
        | cons c' p'' =>
          rw [List.cons_append] at hsplit'
          injection hsplit' with hc hcs
          subst hc
          rw [tokenSplit_cons] at htok'
          exact Nat.succ_le_succ (hmin p'' m' q' hcs htok')
    | false =>
      rw [searchAux] at h
      split at h
      · next m0 htl =>
        injection h with h
        subst h
        obtain ⟨L, hL4, hL8, hok, hm⟩ := tryLens_sound 8 (c :: cs) m0 htl
        obtain ⟨hlen, hdig, hnw⟩ := boundaryOk_parts hok
        have hlentake : ((c :: cs).take L).length = L := by
          rw [List.length_take]
          simp only [List.length_cons] at hlen ⊢
          omega
        refine ⟨[], (c :: cs).drop L, ?_, ?_, ?_⟩
        · rw [List.nil_append, hm, List.take_append_drop]
        · subst hm
          simp only [tokenSplit, lastWord, Bool.not_false, Bool.true_and, tokenCore,
            Bool.and_eq_true, decide_eq_true_eq]
          exact ⟨⟨⟨hdig, by omega⟩, by omega⟩, hnw⟩
        · intro p' m' q' _ _
          exact Nat.zero_le _
      · next htl =>
        obtain ⟨p, q, hsplit, htok, hmin⟩ := ih (isWordChar c) m h
        refine ⟨c :: p, q, by rw [List.cons_append, hsplit], ?_, ?_⟩
        · rw [tokenSplit_cons]
          exact htok
        · intro p' m' q' hsplit' htok'
          cases p' with
          | nil =>
            exfalso
            rw [List.nil_append] at hsplit'
            simp only [tokenSplit, lastWord, Bool.not_false, Bool.true_and, tokenCore,
              Bool.and_eq_true, decide_eq_true_eq] at htok'
            obtain ⟨⟨⟨hdig', h4'⟩, h8'⟩, hnw'⟩ := htok'
            have hok' : boundaryOk m'.length (c :: cs) = true := by
              rw [hsplit']
              exact boundaryOk_intro m' q' hdig' hnw'
            have hko := tryLens_none 8 (c :: cs) htl m'.length h4' h8'
            rw [hko] at hok'
            exact Bool.noConfusion hok'
          | cons c' p'' =>
            rw [List.cons_append] at hsplit'
            injection hsplit' with hc hcs
            subst hc
            rw [tokenSplit_cons] at htok'
            exact Nat.succ_le_succ (hmin p'' m' q' hcs htok')

-- ---------------------------------------------------------------------
-- Helper lemmas about the polling loop
-- ---------------------------------------------------------------------

theorem pollLoopAux_elapsed_le (found : Nat → Bool) (d : Nat → Nat) (mw p : Nat)
    (hd : ∀ k, d k ≤ p) :
    ∀ (fuel t k : Nat), t ≤ mw + p → (pollLoopAux found d mw fuel t k).2 ≤ mw + p := by
  intro fuel
  induction fuel with
  | zero => intro t k ht; exact ht
  | succ fuel ih =>
    intro t k ht
    rw [pollLoopAux]
    split
    · next hlt =>
      split
      · have := hd k
        show t + d k ≤ mw + p
        omega
      · exact ih (t + d k) (k + 1) (by have := hd k; omega)
    · exact ht

theorem pollLoopAux_exit (found : Nat → Bool) (d : Nat → Nat) (mw : Nat)
    (hd : ∀ k, 1 ≤ d k) :
    ∀ (fuel t k : Nat), mw ≤ fuel + t →
      (pollLoopAux found d mw fuel t k).1 = true ∨ mw ≤ (pollLoopAux found d mw fuel t k).2 := by
  intro fuel
  induction fuel with
  | zero => intro t k ht; right; simpa using ht
  | succ fuel ih =>
    intro t k ht
    rw [pollLoopAux]
    split
    · next hlt =>
      split
      · left; rfl
      · exact ih (t + d k) (k + 1) (by have := hd k; omega)
    · next hge => right; omega

-- ---------------------------------------------------------------------
-- Helper lemmas about the orchestrator trace
-- ---------------------------------------------------------------------

theorem count_tryEvents_le (env : MainEnv) (e : MainEv) :
    (tryEvents env).count e ≤ ((plannedSteps env).flatten).count e := by
  rw [tryEvents]
  cases hr : env.raiseAt with
  | none => exact Nat.le_refl _
  | some j =>
    conv_rhs => rw [← List.take_append_drop j (plannedSteps env)]
    rw [List.flatten_append, List.count_append]
    exact Nat.le_add_right _ _

theorem planned_count_report (env : MainEnv) :
    ((plannedSteps env).flatten).count MainEv.report = 0 := by
  obtain ⟨ld, fo, fd, ra⟩ := env
  cases ld <;> cases fd <;> cases fo <;> rfl

theorem planned_count_quit (env : MainEnv) :
    ((plannedSteps env).flatten).count MainEv.quitDriver = 0 := by
  obtain ⟨ld, fo, fd, ra⟩ := env
  cases ld <;> cases fd <;> cases fo <;> rfl

-- ---------------------------------------------------------------------
-- Claim theorems
-- ---------------------------------------------------------------------

/-- C1: the claim states that every generated mailbox address contains
exactly one at-sign with the configured mail domain after it.  The code
violates this: fake.email() already returns a full address containing an
at-sign, and generate_random_mailbox appends a second one.  At the
concrete Faker output "john.doe@example.com" the generator returns
"john.doe@example.com@mailsac.com", whose at-sign count is 2, not 1. -/
theorem mailbox_has_two_at_signs :
    generate_random_mailbox "john.doe@example.com" 6 MAIL_DOMAIN
        = "john.doe@example.com@mailsac.com" ∧
      countAt (generate_random_mailbox "john.doe@example.com" 6 MAIL_DOMAIN) = 2 ∧
      countAt (generate_random_mailbox "john.doe@example.com" 6 MAIL_DOMAIN) ≠ 1 := by
  refine ⟨?_, ?_, ?_⟩ <;> decide

/-- C2: the OTP pattern extraction returns "482913" for a body containing
that token surrounded by prose, returns "7731" for the body "Your code is
7731 — expires in 10 minutes", and returns none for a body whose only
digits form a single 11-digit number (no truncated 4-to-8-digit substring
is returned). -/
theorem otp_regex_extraction_examples :
    otpSearch "Please enter the code 482913 to verify your account" = some "482913" ∧
      otpSearch "Your code is 7731 — expires in 10 minutes" = some "7731" ∧
      otpSearch "Call us at 12345678901 for help" = none := by
  refine ⟨?_, ?_, ?_⟩ <;> decide

/-- C3: if fetch_otp_from_mailsac raises an unexpected exception
internally after the browser session was opened, it returns the pair
(none, none) — the session handle is not passed to the caller — and the
opened session is quit exactly once (and hence closed) before
returning. -/
theorem fetch_exception_returns_null_and_quits_once (env : FetchEnv) (max_wait : Nat)
    (hc : env.createOk = true) (hr : (fetchModel env max_wait).raised = true) :
    (fetchModel env max_wait).otp = none ∧
      (fetchModel env max_wait).sessionReturned = false ∧
      (fetchModel env max_wait).quitCount = 1 ∧
      (fetchModel env max_wait).sessionOpen = false := by
  cases hn : env.navOk with
  | false => simp [fetchModel, hc, hn]
  | true =>
    cases hm : env.mailboxFieldOk with
    | false => simp [fetchModel, hc, hn, hm]
    | true =>
      cases hk : env.checkBtnOk with
      | false => simp [fetchModel, hc, hn, hm, hk]
      | true =>
        cases hb : env.bodyText with
        | none => simp [fetchModel, hc, hn, hm, hk, hb]
        | some b =>
          exfalso
          simp [fetchModel, hc, hn, hm, hk, hb] at hr

theorem fetch_exception_returns_null_and_quits_once_witness :
    (fetchModel ⟨true, false, true, true, fun _ => false, fun _ => POLL_INTERVAL, none⟩
        OTP_MAX_WAIT).otp = none ∧
      (fetchModel ⟨true, false, true, true, fun _ => false, fun _ => POLL_INTERVAL, none⟩
        OTP_MAX_WAIT).sessionReturned = false ∧
      (fetchModel ⟨true, false, true, true, fun _ => false, fun _ => POLL_INTERVAL, none⟩
        OTP_MAX_WAIT).quitCount = 1 ∧
      (fetchModel ⟨true, false, true, true, fun _ => false, fun _ => POLL_INTERVAL, none⟩
        OTP_MAX_WAIT).sessionOpen = false :=
  fetch_exception_returns_null_and_quits_once
    ⟨true, false, true, true, fun _ => false, fun _ => POLL_INTERVAL, none⟩
    OTP_MAX_WAIT rfl rfl

/-- C4: the inbox polling loop terminates within max_wait + poll_interval
wall-clock time for every execution, whether or not a message row ever
appears: under the claim's premise that each iteration's row lookup takes
at least one time unit and at most poll_interval, the elapsed time at
loop exit is at most max_wait + poll_interval, and the loop only exits
with a found row or with accumulated elapsed time at least max_wait. -/
theorem poll_loop_terminates_within_bound (found : Nat → Bool) (d : Nat → Nat)
    (max_wait poll_interval : Nat)
    (h1 : ∀ k, 1 ≤ d k) (h2 : ∀ k, d k ≤ poll_interval) :
    (pollLoop found d max_wait).2 ≤ max_wait + poll_interval ∧
      ((pollLoop found d max_wait).1 = true ∨ max_wait ≤ (pollLoop found d max_wait).2) := by
  constructor
  · exact pollLoopAux_elapsed_le found d max_wait poll_interval h2 (max_wait + 1) 0 0
      (Nat.zero_le _)
  · exact pollLoopAux_exit found d max_wait h1 (max_wait + 1) 0 0 (by omega)

theorem poll_loop_terminates_within_bound_witness :
    (pollLoop (fun _ => false) (fun _ => POLL_INTERVAL) OTP_MAX_WAIT).2
        ≤ OTP_MAX_WAIT + POLL_INTERVAL ∧
      ((pollLoop (fun _ => false) (fun _ => POLL_INTERVAL) OTP_MAX_WAIT).1 = true ∨
        OTP_MAX_WAIT ≤ (pollLoop (fun _ => false) (fun _ => POLL_INTERVAL) OTP_MAX_WAIT).2) :=
  poll_loop_terminates_within_bound (fun _ => false) (fun _ => POLL_INTERVAL)
    OTP_MAX_WAIT POLL_INTERVAL (fun _ => (show 1 ≤ POLL_INTERVAL by decide))
    (fun _ => Nat.le_refl POLL_INTERVAL)

/-- C5: if the polling loop exhausts max_wait without ever finding an
inbox row, fetch_otp_from_mailsac does not abort early: it still reaches
the message-body wait step (which has its own separate DEFAULT_TIMEOUT
bound), and when that wait yields a body it reaches pattern extraction,
whose result is the regex search over the body. -/
theorem fetch_proceeds_after_poll_exhaustion (env : FetchEnv) (max_wait : Nat)
    (hc : env.createOk = true) (hn : env.navOk = true)
    (hm : env.mailboxFieldOk = true) (hk : env.checkBtnOk = true)
    (hrow : ∀ k, env.iterOk k = false) :
    (fetchModel env max_wait).reachedBodyWait = true ∧
      ∀ b, env.bodyText = some b →
        (fetchModel env max_wait).reachedExtraction = true ∧
        (fetchModel env max_wait).otp = otpSearch b := by
  cases hb : env.bodyText with
  | none =>
    constructor
    · simp [fetchModel, hc, hn, hm, hk, hb]
    · intro b hbb
      exact absurd hbb (by simp)
  | some b =>
    constructor
    · simp [fetchModel, hc, hn, hm, hk, hb]
    · intro b' hbb
      injection hbb with hbb
      subst hbb
      simp [fetchModel, hc, hn, hm, hk, hb]

theorem fetch_proceeds_after_poll_exhaustion_witness :
    (fetchModel ⟨true, true, true, true, fun _ => false, fun _ => POLL_INTERVAL,
        some "Your code is 7731 — expires in 10 minutes"⟩ OTP_MAX_WAIT).reachedBodyWait = true ∧
      ∀ b, (FetchEnv.bodyText ⟨true, true, true, true, fun _ => false, fun _ => POLL_INTERVAL,
          some "Your code is 7731 — expires in 10 minutes"⟩) = some b →
        (fetchModel ⟨true, true, true, true, fun _ => false, fun _ => POLL_INTERVAL,
          some "Your code is 7731 — expires in 10 minutes"⟩ OTP_MAX_WAIT).reachedExtraction
            = true ∧
        (fetchModel ⟨true, true, true, true, fun _ => false, fun _ => POLL_INTERVAL,
          some "Your code is 7731 — expires in 10 minutes"⟩ OTP_MAX_WAIT).otp = otpSearch b :=
  fetch_proceeds_after_poll_exhaustion
    ⟨true, true, true, true, fun _ => false, fun _ => POLL_INTERVAL,
      some "Your code is 7731 — expires in 10 minutes"⟩
    OTP_MAX_WAIT rfl rfl rfl rfl (fun _ => rfl)

/-- C6: in a run of main in which no unexpected exception escapes a step,
the OTP submission step appears in the run's event trace if and only if
fetch_otp_from_mailsac returned a non-null code; form submission appears
if and only if launch returned a non-null handle; the alert check appears
if and only if a non-null driver was returned; and the launch and fetch
steps are always attempted, even after earlier steps reported failure. -/
theorem main_submit_iff_code_retrieved (env : MainEnv) (h : env.raiseAt = none) :
    (MainEv.submitOtp ∈ mainEvents env ↔ env.fetchOtp.isSome = true) ∧
      (MainEv.fillForm ∈ mainEvents env ↔ env.launchDesktop = true) ∧
      (MainEv.alertCheck ∈ mainEvents env ↔ env.fetchDriver = true) ∧
      MainEv.launch ∈ mainEvents env ∧ MainEv.fetchCall ∈ mainEvents env := by
  obtain ⟨ld, fo, fd, ra⟩ := env
  have h' : ra = none := h
  subst h'
  cases ld <;> cases fd <;> cases fo <;>
    simp [mainEvents, tryEvents, plannedSteps, heldDriver, stepCompleted]

theorem main_submit_iff_code_retrieved_witness :
    (MainEv.submitOtp ∈ mainEvents ⟨true, some "7731", true, none⟩ ↔
        (Option.isSome (some "7731") = true)) ∧
      (MainEv.fillForm ∈ mainEvents ⟨true, some "7731", true, none⟩ ↔ true = true) ∧
      (MainEv.alertCheck ∈ mainEvents ⟨true, some "7731", true, none⟩ ↔ true = true) ∧
      MainEv.launch ∈ mainEvents ⟨true, some "7731", true, none⟩ ∧
      MainEv.fetchCall ∈ mainEvents ⟨true, some "7731", true, none⟩ :=
  main_submit_iff_code_retrieved ⟨true, some "7731", true, none⟩ rfl

/-- C7: on every termination path of main — normal completion, any
component failure, or an unexpected exception escaping at any step —
the run's event trace contains the report-rendering event exactly once,
and contains the driver-quit event exactly once when a browser session is
held by the orchestrator and not at all otherwise: the finally block
closes any held session and renders the report unconditionally. -/
theorem main_always_reports_once_and_closes_session (env : MainEnv) :
    (mainEvents env).count MainEv.report = 1 ∧
      (mainEvents env).count MainEv.quitDriver = (if heldDriver env then 1 else 0) := by
  have hr' : (tryEvents env).count MainEv.report = 0 :=
    Nat.le_zero.mp (planned_count_report env ▸ count_tryEvents_le env MainEv.report)
  have hq' : (tryEvents env).count MainEv.quitDriver = 0 :=
    Nat.le_zero.mp (planned_count_quit env ▸ count_tryEvents_le env MainEv.quitDriver)
  cases hh : heldDriver env <;>
    simp [mainEvents, List.count_append, hr', hq', hh]

/-- C8, counterexample to the claim as stated: Python's re.search on a
str reads \d and \b at Unicode granularity, so the extraction does not
always return a code of ASCII digits.  On the body "٠١٢٣" (four
Arabic-Indic digits, category Nd) the program returns the code "٠١٢٣",
and on "1234٥" it returns "1234٥"; neither code consists of ASCII
digits.  (The ASCII reading otpSearch instead returns none and
some "1234" on these bodies, so the original universal statement held of
the ASCII model only by dropping these cases.) -/
theorem otp_code_not_ascii_counterexample :
    otpSearchU "٠١٢٣" = some "٠١٢٣" ∧
      (String.data "٠١٢٣").all Char.isDigit = false ∧
      otpSearchU "1234٥" = some "1234٥" ∧
      (String.data "1234٥").all Char.isDigit = false := by
  refine ⟨?_, ?_, ?_, ?_⟩ <;> decide

/-- C8 (amended): for every message body consisting solely of ASCII
characters — on which Python's Unicode-aware \d and \b coincide with
their ASCII readings, so otpSearch is the exact behavior of the program —
whenever the OTP extraction of fetch_otp_from_mailsac returns a non-null
code, that code is a block of 4 to 8 contiguous ASCII digits occurring in
the body as a whole token delimited by word boundaries, and no such token
starts earlier in the body (it is the first match).  On non-ASCII bodies
the returned code can contain non-ASCII Unicode digits; see the
counterexample. -/
theorem otp_code_is_first_whole_token_ascii (s code : String)
    (hascii : s.data.all (fun c => decide (c.toNat < 128)) = true)
    (h : otpSearch s = some code) :
    ∃ p q : List Char, s.data = p ++ (code.data ++ q) ∧
      tokenSplit false p code.data q = true ∧
      ∀ p' m' q', s.data = p' ++ (m' ++ q') → tokenSplit false p' m' q' = true →
        p.length ≤ p'.length := by
  unfold otpSearch at h
  cases hs : searchAux false s.data with
  | none =>
    rw [hs] at h
    exact absurd h (by simp)
  | some m =>
    rw [hs] at h
    have hm : String.mk m = code := by simpa using h
    have hdata : code.data = m := by rw [← hm]
    rw [hdata]
    exact searchAux_spec s.data false m hs

theorem otp_code_is_first_whole_token_ascii_witness :
    ∃ p q : List Char,
      (String.data "Your code is 7731 - expires in 10 minutes")
          = p ++ (String.data "7731" ++ q) ∧
      tokenSplit false p (String.data "7731") q = true ∧
      ∀ p' m' q',
        (String.data "Your code is 7731 - expires in 10 minutes") = p' ++ (m' ++ q') →
        tokenSplit false p' m' q' = true → p.length ≤ p'.length :=
  otp_code_is_first_whole_token_ascii "Your code is 7731 - expires in 10 minutes" "7731"
    (by decide) (by decide)

/-- C9: if fetch_otp_from_mailsac reaches the body text and the regex
finds no 4-to-8-digit token in it, the function returns (none, session)
where the session handle is non-null and the browser session is still
open (never quit), so the caller can inspect or close it. -/
theorem fetch_no_code_returns_live_session (env : FetchEnv) (max_wait : Nat) (b : String)
    (hc : env.createOk = true) (hn : env.navOk = true)
    (hm : env.mailboxFieldOk = true) (hk : env.checkBtnOk = true)
    (hb : env.bodyText = some b) (hno : otpSearch b = none) :
    (fetchModel env max_wait).otp = none ∧
      (fetchModel env max_wait).sessionReturned = true ∧
      (fetchModel env max_wait).sessionOpen = true ∧
      (fetchModel env max_wait).quitCount = 0 := by
  simp [fetchModel, hc, hn, hm, hk, hb, hno]

theorem fetch_no_code_returns_live_session_witness :
    (fetchModel ⟨true, true, true, true, fun _ => true, fun _ => POLL_INTERVAL,
        some "no digits here"⟩ OTP_MAX_WAIT).otp = none ∧
      (fetchModel ⟨true, true, true, true, fun _ => true, fun _ => POLL_INTERVAL,
        some "no digits here"⟩ OTP_MAX_WAIT).sessionReturned = true ∧
      (fetchModel ⟨true, true, true, true, fun _ => true, fun _ => POLL_INTERVAL,
        some "no digits here"⟩ OTP_MAX_WAIT).sessionOpen = true ∧
      (fetchModel ⟨true, true, true, true, fun _ => true, fun _ => POLL_INTERVAL,
        some "no digits here"⟩ OTP_MAX_WAIT).quitCount = 0 :=
  fetch_no_code_returns_live_session
    ⟨true, true, true, true, fun _ => true, fun _ => POLL_INTERVAL, some "no digits here"⟩
    OTP_MAX_WAIT "no digits here" rfl rfl rfl rfl rfl (by decide)

/-- C10: the outputs of generate_random_mailbox and generate_random_name
do not depend on their length parameters: with the random sources held
fixed, any two values of the length arguments give identical results —
the parameters are accepted but never used. -/
theorem length_parameters_never_used (fe d ff fl : String) (n1 n2 k1 k2 j1 j2 : Nat) :
    generate_random_mailbox fe n1 d = generate_random_mailbox fe n2 d ∧
      generate_random_name ff fl k1 j1 = generate_random_name ff fl k2 j2 :=
  ⟨rfl, rfl⟩
